import Mathlib

/-!
Shallow embedding of the claraproviderios repository: the two record-store
scripts present under `src/`, and the session activity archiver that the
design document describes (its code is not among the provided sources, so it
is modelled from the design document; those definitions say so explicitly).

Scripts:
* `src/create_test_conversations.py` — seeds ten synthetic conversations into
  a record store (`insert` on table `provider_review_requests`).
* `src/reset_demo_data.py` — deletes the seeded records
  (`delete` filtered on `user_id = "test_provider_001"`) and re-seeds the
  same `TEST_CONVERSATIONS` templates.

External effects (the Supabase client, `uuid.uuid4`, `datetime.utcnow`,
`datetime.now`) are modelled as oracles: freshly generated identifier and
timestamp strings are supplied by a `FreshGen` environment, and record-store
failures by boolean failure oracles.  A run of a script is modelled by the
trace of record-store operations it attempts together with the error reports
it prints.
-/

namespace Clara

/-- A message template: one element of a `messages` list inside
`TEST_CONVERSATIONS` (`src/create_test_conversations.py`), a
`role`/`content` dictionary. -/
structure MsgTemplate where
  role : String
  content : String
deriving Repr, DecidableEq

/-- One entry of the `TEST_CONVERSATIONS` list of
`src/create_test_conversations.py` (lines 32-242).  Optional dictionary keys
are modelled as `Option`s (`none` = key absent from the template).  The
`responded_at` key of a template holds a timestamp computed at import time
from `datetime.utcnow()`; the scripts only test its presence and overwrite or
copy its (freshly generated) value, so the template records its presence as
`has_responded_at` and the value itself is supplied by the `FreshGen`
oracle. -/
structure ConvTemplate where
  child_name : String
  child_age : String
  child_dob : String
  conversation_title : String
  triage_outcome : String
  conversation_summary : String
  status : String
  provider_response : Option String
  provider_name : Option String
  has_responded_at : Bool
  flag_reason : Option String
  messages : List MsgTemplate
deriving Repr, DecidableEq
def TEST_CONVERSATIONS : List ConvTemplate := [
  { child_name := "Emma Nonesuch",
    child_age := "2 years, 3 months old",
    child_dob := "2022-08-15",
    conversation_title := "Fever and rash",
    triage_outcome := "routine",
    conversation_summary := "Parent concerned about fever (101°F) and red rash on torso. Child eating and playing normally. Rash appeared 2 days ago after fever started.",
    status := "pending",
    provider_response := none,
    provider_name := none,
    has_responded_at := false,
    flag_reason := none,
    messages := [
      { role := "parent", content := "Hi, my daughter Emma Nonesuch has had a fever for 2 days and now has a red rash on her stomach." },
      { role := "clara", content := "I understand Emma has a fever and rash. Let me ask some questions. What\x27s her current temperature?" },
      { role := "parent", content := "It\x27s 101 degrees. The rash just started this morning." },
      { role := "clara", content := "Is the rash flat or raised? Does it blanch when you press on it?" },
      { role := "parent", content := "It\x27s mostly flat and small red dots. They do go away when I press them." },
      { role := "clara", content := "That\x27s helpful. Is Emma eating and drinking normally?" },
      { role := "parent", content := "Yes, she\x27s been drinking well and ate breakfast." }
    ] },
  { child_name := "Noah Nonesuch",
    child_age := "5 years, 7 months old",
    child_dob := "2019-04-10",
    conversation_title := "Cough and difficulty breathing",
    triage_outcome := "urgent",
    conversation_summary := "Child with worsening cough, wheezing, and labored breathing. History of asthma. Using rescue inhaler every 3 hours with minimal relief.",
    status := "pending",
    provider_response := none,
    provider_name := none,
    has_responded_at := false,
    flag_reason := none,
    messages := [
      { role := "parent", content := "My son Noah Nonesuch has been coughing a lot and seems to be breathing hard." },
      { role := "clara", content := "I\x27m concerned about Noah\x27s breathing. Does he have a history of asthma?" },
      { role := "parent", content := "Yes, he does. He\x27s been using his inhaler but it\x27s not helping much." },
      { role := "clara", content := "How often is he using the rescue inhaler?" },
      { role := "parent", content := "Every 3 hours or so. He\x27s wheezing pretty bad." },
      { role := "clara", content := "Is he able to speak in full sentences or is he breathing too hard?" },
      { role := "parent", content := "He can only say a few words before needing to catch his breath." },
      { role := "clara", content := "I\x27m concerned about Noah. Can you count how many breaths he takes in one minute?" },
      { role := "parent", content := "I counted 45 breaths in a minute." }
    ] },
  { child_name := "Sophia Nonesuch",
    child_age := "6 months old",
    child_dob := "2024-05-07",
    conversation_title := "Vomiting and refusing feeds",
    triage_outcome := "urgent",
    conversation_summary := "6-month-old with vomiting x6 times in past 12 hours. Refusing bottle feeds. Last wet diaper 8 hours ago. Lethargic but arousable.",
    status := "responded",
    provider_response := some "I agree with Clara\x27s recommendation. Please take Sophia Nonesuch to urgent care today. With decreased wet diapers and refusing feeds, she needs evaluation for dehydration. Call if she becomes difficult to wake or has no urine for 12+ hours.",
    provider_name := some "Dr Michael Hobbs",
    has_responded_at := true,
    flag_reason := none,
    messages := [
      { role := "parent", content := "Sophia Nonesuch has been throwing up since last night. She\x27s thrown up 6 times." },
      { role := "clara", content := "That must be worrying. Is she keeping any fluids down?" },
      { role := "parent", content := "No, she throws up the bottle every time I try to feed her." },
      { role := "clara", content := "When was her last wet diaper?" },
      { role := "parent", content := "It\x27s been about 8 hours. Should I be worried?" },
      { role := "clara", content := "Yes, I\x27m concerned about dehydration. Is she acting normally otherwise?" },
      { role := "parent", content := "She seems really tired and sleepy, more than usual." }
    ] },
  { child_name := "Liam Nonesuch",
    child_age := "3 years, 1 month old",
    child_dob := "2021-10-12",
    conversation_title := "Ear pain after swimming",
    triage_outcome := "routine",
    conversation_summary := "Child with ear pain after swimming yesterday. No fever. Pain is moderate, interfering with sleep. Drainage from right ear noted.",
    status := "responded",
    provider_response := some "Sounds like swimmer\x27s ear. You can use over-the-counter pain relief and keep the ear dry. If pain worsens or fever develops, see your pediatrician within 24-48 hours for prescription ear drops.",
    provider_name := some "Dr Michael Hobbs",
    has_responded_at := true,
    flag_reason := none,
    messages := [
      { role := "parent", content := "Liam Nonesuch went swimming yesterday and now his ear hurts." },
      { role := "clara", content := "Does he have a fever?" },
      { role := "parent", content := "No fever, just complaining about his right ear." },
      { role := "clara", content := "Is there any drainage from the ear?" },
      { role := "parent", content := "Yes, a little clear fluid came out this morning." }
    ] },
  { child_name := "Ava Nonesuch",
    child_age := "4 years, 5 months old",
    child_dob := "2020-06-20",
    conversation_title := "Possible allergic reaction to food",
    triage_outcome := "urgent",
    conversation_summary := "Child developed hives and facial swelling 15 minutes after eating peanut butter for first time. No difficulty breathing. Parent has Benadryl at home.",
    status := "flagged",
    provider_response := some "Watch closely for any breathing difficulty. Give Benadryl as directed. If any lip swelling, tongue swelling, or trouble breathing develops, use EpiPen if available and call 911 immediately.",
    provider_name := none,
    has_responded_at := true,
    flag_reason := some "Need to verify if breathing is truly normal - facial swelling can progress",
    messages := [
      { role := "parent", content := "Help! Ava Nonesuch ate peanut butter and now has hives all over!" },
      { role := "clara", content := "Is she having any trouble breathing or swallowing?" },
      { role := "parent", content := "No, but her face looks a little puffy around her eyes." },
      { role := "clara", content := "Do you have Benadryl or an EpiPen at home?" },
      { role := "parent", content := "I have Benadryl. Should I give it to her?" },
      { role := "clara", content := "Yes, give her the appropriate dose for her weight. Is she breathing normally?" },
      { role := "parent", content := "Yes, breathing is fine. Just the hives and puffy eyes." }
    ] },
  { child_name := "Ethan Nonesuch",
    child_age := "7 years, 2 months old",
    child_dob := "2017-09-03",
    conversation_title := "Head injury from fall",
    triage_outcome := "urgent",
    conversation_summary := "Child fell from playground equipment (~6 feet), hit head on mulch. Brief loss of consciousness (~10 seconds). Currently awake but confused and has vomited once.",
    status := "pending",
    provider_response := none,
    provider_name := none,
    has_responded_at := false,
    flag_reason := none,
    messages := [
      { role := "parent", content := "Ethan Nonesuch fell off the monkey bars at the playground and hit his head!" },
      { role := "clara", content := "That\x27s scary. Did he lose consciousness at all?" },
      { role := "parent", content := "Yes, for maybe 10 seconds. He\x27s awake now but seems confused." },
      { role := "clara", content := "Has he vomited?" },
      { role := "parent", content := "Yes, once right after he woke up." },
      { role := "clara", content := "Is he complaining of a headache? Can you see his pupils?" },
      { role := "parent", content := "He says his head hurts a lot. His pupils look the same size to me." },
      { role := "clara", content := "How high was the fall?" },
      { role := "parent", content := "About 6 feet onto wood chips." }
    ] },
  { child_name := "Olivia Nonesuch",
    child_age := "18 months old",
    child_dob := "2023-05-20",
    conversation_title := "Persistent diarrhea and diaper rash",
    triage_outcome := "routine",
    conversation_summary := "18-month-old with watery diarrhea for 3 days, 5-6 episodes per day. Drinking well. Severe diaper rash developed. No fever. Still playful and active.",
    status := "pending",
    provider_response := none,
    provider_name := none,
    has_responded_at := false,
    flag_reason := none,
    messages := [
      { role := "parent", content := "Hi, Olivia Nonesuch has had diarrhea for 3 days now and her diaper area is really red." },
      { role := "clara", content := "I understand that\x27s uncomfortable for her. How many episodes of diarrhea is she having per day?" },
      { role := "parent", content := "About 5 or 6 times. It\x27s really watery." },
      { role := "clara", content := "Is she keeping fluids down? How is she drinking?" },
      { role := "parent", content := "She\x27s drinking fine. Maybe even more than usual because she seems thirsty." },
      { role := "clara", content := "That\x27s good. Does she have a fever?" },
      { role := "parent", content := "No fever. She\x27s actually still playing and seems pretty happy between diaper changes." },
      { role := "clara", content := "How bad is the diaper rash? Is the skin broken or bleeding?" },
      { role := "parent", content := "It\x27s very red and she cries when I wipe her, but I don\x27t see any bleeding." },
      { role := "clara", content := "Has she been around anyone else who\x27s been sick?" },
      { role := "parent", content := "Yes, her older brother had a stomach bug last week." }
    ] },
  { child_name := "Mason Nonesuch",
    child_age := "4 years, 8 months old",
    child_dob := "2020-03-12",
    conversation_title := "Sore throat and refusing to eat",
    triage_outcome := "routine",
    conversation_summary := "4-year-old with sore throat for 2 days, refusing solid foods. Low-grade fever (100.4°F). Drinking liquids okay. No difficulty breathing or drooling.",
    status := "pending",
    provider_response := none,
    provider_name := none,
    has_responded_at := false,
    flag_reason := none,
    messages := [
      { role := "parent", content := "Mason Nonesuch has a sore throat and won\x27t eat anything. Should I be worried?" },
      { role := "clara", content := "Sore throats can make eating difficult. Does he have a fever?" },
      { role := "parent", content := "Yes, it\x27s been around 100.4 degrees for the past day." },
      { role := "clara", content := "Is he able to drink liquids?" },
      { role := "parent", content := "Yes, he\x27s drinking juice and water. Just won\x27t eat solid food because he says it hurts." },
      { role := "clara", content := "Can you look at his throat? Do you see any white patches or redness?" },
      { role := "parent", content := "It\x27s hard to get him to open wide, but I can see it\x27s pretty red in the back." },
      { role := "clara", content := "Is he drooling or having any trouble breathing?" },
      { role := "parent", content := "No drooling and breathing seems normal." },
      { role := "clara", content := "Has he been around other kids with strep throat recently?" },
      { role := "parent", content := "Actually yes, there\x27s been strep going around his preschool." }
    ] },
  { child_name := "Isabella Nonesuch",
    child_age := "8 years, 5 months old",
    child_dob := "2016-06-18",
    conversation_title := "Ankle injury from soccer",
    triage_outcome := "routine",
    conversation_summary := "8-year-old twisted ankle during soccer practice 2 hours ago. Can bear some weight but limping. Mild swelling on outside of ankle. No deformity visible.",
    status := "pending",
    provider_response := none,
    provider_name := none,
    has_responded_at := false,
    flag_reason := none,
    messages := [
      { role := "parent", content := "Isabella Nonesuch hurt her ankle at soccer practice. She\x27s limping but can walk on it." },
      { role := "clara", content := "When did this happen?" },
      { role := "parent", content := "About 2 hours ago. She was running and twisted it." },
      { role := "clara", content := "Can she put any weight on it at all?" },
      { role := "parent", content := "Yes, she can stand on it but she\x27s limping. She says it hurts when she walks." },
      { role := "clara", content := "Is there any swelling or bruising?" },
      { role := "parent", content := "There\x27s some swelling on the outside of her ankle. No bruising yet." },
      { role := "clara", content := "Does the ankle look deformed or out of place compared to the other ankle?" },
      { role := "parent", content := "No, it looks normal, just a bit puffy." },
      { role := "clara", content := "Have you tried ice or elevation?" },
      { role := "parent", content := "Yes, we\x27ve had ice on it for about 20 minutes and she\x27s been sitting with it up." }
    ] },
  { child_name := "Jackson Nonesuch",
    child_age := "10 months old",
    child_dob := "2024-01-15",
    conversation_title := "Possible ear infection - fussy and pulling ear",
    triage_outcome := "routine",
    conversation_summary := "10-month-old increasingly fussy for 2 days, pulling at right ear. Low fever (100.8°F). Decreased appetite but still taking some bottle. No drainage from ear visible.",
    status := "pending",
    provider_response := none,
    provider_name := none,
    has_responded_at := false,
    flag_reason := none,
    messages := [
      { role := "parent", content := "Jackson Nonesuch has been really fussy and keeps pulling at his right ear." },
      { role := "clara", content := "Ear pulling can be a sign of discomfort. How long has this been going on?" },
      { role := "parent", content := "About 2 days. He\x27s been more cranky than usual, especially at night." },
      { role := "clara", content := "Does he have a fever?" },
      { role := "parent", content := "Yes, 100.8 this morning. Nothing too high." },
      { role := "clara", content := "Is he eating and drinking normally?" },
      { role := "parent", content := "Not as much as usual. He\x27s taking his bottle but not finishing it like he normally does." },
      { role := "clara", content := "Have you noticed any drainage or fluid coming from his ear?" },
      { role := "parent", content := "No, I don\x27t see anything coming out. Just keeps tugging at it." },
      { role := "clara", content := "Has he had a cold or congestion recently?" },
      { role := "parent", content := "Yes! He had a runny nose last week. It\x27s mostly cleared up now." },
      { role := "clara", content := "Is he sleeping okay or waking up more than usual?" },
      { role := "parent", content := "He\x27s been waking up crying a lot more at night. Last night was rough." }
    ] }
]

/-- A formatted conversation message as produced by
`create_conversation_messages` (`src/create_test_conversations.py`,
lines 245-255). -/
structure Msg where
  id : String
  content : String
  isFromUser : Bool
  timestamp : String
deriving Repr, DecidableEq

/-- A value stored under one key of a record payload: either a plain string
or the formatted message list stored under `conversation_messages`. -/
inductive Value where
  | str (s : String)
  | msgs (l : List Msg)
deriving Repr, DecidableEq

/-- Oracle supplying the freshly generated identifiers and timestamps the
scripts obtain from `uuid.uuid4()`, `datetime.utcnow()` and
`datetime.now().astimezone()`.  All arguments are the 1-based loop index of
the conversation being built (message generators additionally take the
0-based `enumerate` index of the message). -/
structure FreshGen where
  convId : Nat → String
  msgId : Nat → Nat → String
  msgTs : Nat → Nat → String
  createdAt : Nat → String
  respondedAt : Nat → String

/-- `create_conversation_messages(messages)`
(`src/create_test_conversations.py`, lines 245-255): formats each
`role`/`content` template entry, in `enumerate` order, into a message with a
fresh `id` (from `uuid.uuid4()`, here the oracle `genId`), the unchanged
`content`, `isFromUser = (role == "parent")`, and a fresh `timestamp`
(computed in the source from `datetime.utcnow()` and the pair
`(len(messages), idx)`, here the oracle `genTs`). -/
def create_conversation_messages (genId genTs : Nat → String)
    (messages : List MsgTemplate) : List Msg :=
  messages.enum.map (fun p =>
    { id := genId p.1
      content := p.2.content
      isFromUser := p.2.role == "parent"
      timestamp := genTs p.1 })

/-- The record payload built for template `conv` at 1-based loop index `idx`
by `create_test_conversations` (`src/create_test_conversations.py`,
lines 264-289), as the ordered key/value list produced by the dict
construction followed by the four conditional key insertions. -/
def seedRecord (gen : FreshGen) (idx : Nat) (conv : ConvTemplate) :
    List (String × Value) :=
  let base : List (String × Value) := [
    ("conversation_id", Value.str (gen.convId idx)),
    ("user_id", Value.str "test_provider_001"),
    ("conversation_title", Value.str conv.conversation_title),
    ("child_name", Value.str conv.child_name),
    ("child_age", Value.str conv.child_age),
    ("child_dob", Value.str conv.child_dob),
    ("triage_outcome", Value.str conv.triage_outcome),
    ("conversation_summary", Value.str conv.conversation_summary),
    ("conversation_messages",
      Value.msgs (create_conversation_messages (gen.msgId idx) (gen.msgTs idx)
        conv.messages)),
    ("status", Value.str conv.status),
    ("created_at", Value.str (gen.createdAt idx))]
  let d1 := match conv.provider_response with
    | some v => base ++ [("provider_response", Value.str v)]
    | none => base
  let d2 := match conv.provider_name with
    | some v => d1 ++ [("provider_name", Value.str v)]
    | none => d1
  let d3 := if conv.has_responded_at then
      d2 ++ [("responded_at", Value.str (gen.respondedAt idx))]
    else d2
  let d4 := match conv.flag_reason with
    | some v => d3 ++ [("flag_reason", Value.str v)]
    | none => d3
  d4

/-- The record payload built for template `conv` at 1-based loop index `idx`
by `create_demo_conversations` (`src/reset_demo_data.py`, lines 62-89): the
same dict construction and conditional key insertions as `seedRecord`, except
that `created_at` comes from `datetime.now().astimezone()` and `responded_at`
is recomputed from the loop index (`hours_ago = 2 if idx <= 3 else 5`); both
are freshly generated timestamp strings supplied by this run's `FreshGen`
oracle. -/
def resetRecord (gen : FreshGen) (idx : Nat) (conv : ConvTemplate) :
    List (String × Value) :=
  let base : List (String × Value) := [
    ("conversation_id", Value.str (gen.convId idx)),
    ("user_id", Value.str "test_provider_001"),
    ("conversation_title", Value.str conv.conversation_title),
    ("child_name", Value.str conv.child_name),
    ("child_age", Value.str conv.child_age),
    ("child_dob", Value.str conv.child_dob),
    ("triage_outcome", Value.str conv.triage_outcome),
    ("conversation_summary", Value.str conv.conversation_summary),
    ("conversation_messages",
      Value.msgs (create_conversation_messages (gen.msgId idx) (gen.msgTs idx)
        conv.messages)),
    ("status", Value.str conv.status),
    ("created_at", Value.str (gen.createdAt idx))]
  let d1 := match conv.provider_response with
    | some v => base ++ [("provider_response", Value.str v)]
    | none => base
  let d2 := match conv.provider_name with
    | some v => d1 ++ [("provider_name", Value.str v)]
    | none => d1
  let d3 := if conv.has_responded_at then
      d2 ++ [("responded_at", Value.str (gen.respondedAt idx))]
    else d2
  let d4 := match conv.flag_reason with
    | some v => d3 ++ [("flag_reason", Value.str v)]
    | none => d3
  d4

/-- An operation attempted against the record store (the Supabase table
`provider_review_requests`). -/
inductive StoreOp where
  | deleteByFilter (field value : String)
  | insert (record : List (String × Value))
deriving Repr, DecidableEq

/-- Whether a store operation is an insert. -/
def StoreOp.isInsert : StoreOp → Bool
  | .insert _ => true
  | _ => false

/-- Whether a store operation is a delete-by-filter. -/
def StoreOp.isDelete : StoreOp → Bool
  | .deleteByFilter _ _ => true
  | _ => false

/-- The observable outcome of a run: the trace of attempted record-store
operations, in order, and the error reports printed. -/
structure RunResult where
  ops : List StoreOp
  errors : List String
deriving Repr, DecidableEq

/-- The `for idx, conv in enumerate(TEST_CONVERSATIONS, 1)` insertion loop
shared in shape by both scripts
(`src/create_test_conversations.py` lines 262-297,
`src/reset_demo_data.py` lines 60-98): each iteration builds a record and
attempts its insert; the per-iteration `try/except` turns a store failure
into a printed error report and the loop continues with the remaining
templates.  `build` is the record construction of the particular script,
`errMsg` its error-report text, and `insFails idx` tells whether the store
raises on iteration `idx`. -/
def insertLoop (build : Nat → ConvTemplate → List (String × Value))
    (errMsg : Nat → ConvTemplate → String) (insFails : Nat → Bool) :
    Nat → List ConvTemplate → RunResult
  | _, [] => { ops := [], errors := [] }
  | idx, conv :: rest =>
    let tail := insertLoop build errMsg insFails (idx + 1) rest
    { ops := StoreOp.insert (build idx conv) :: tail.ops
      errors :=
        if insFails idx then errMsg idx conv :: tail.errors else tail.errors }

/-- A run of `create_test_conversations()`
(`src/create_test_conversations.py`, lines 258-303). -/
def create_test_conversations_run (gen : FreshGen) (insFails : Nat → Bool) :
    RunResult :=
  insertLoop (seedRecord gen)
    (fun idx _ => "Error creating conversation " ++ toString idx)
    insFails 1 TEST_CONVERSATIONS

/-- A run of `create_demo_conversations()`
(`src/reset_demo_data.py`, lines 56-104). -/
def create_demo_conversations_run (gen : FreshGen) (insFails : Nat → Bool) :
    RunResult :=
  insertLoop (resetRecord gen)
    (fun _ conv => "Error creating " ++ conv.child_name)
    insFails 1 TEST_CONVERSATIONS

/-- A run of `delete_test_conversations()`
(`src/reset_demo_data.py`, lines 43-53): one delete-by-filter on
`user_id = "test_provider_001"` is attempted; a failure is caught and
reported as a warning. -/
def delete_test_conversations_run (delFails : Bool) : RunResult :=
  { ops := [StoreOp.deleteByFilter "user_id" "test_provider_001"]
    errors := if delFails then ["Warning during deletion"] else [] }

/-- A run of `main()` (`src/reset_demo_data.py`, lines 107-117):
`delete_test_conversations()` followed by `create_demo_conversations()`. -/
def main_run (gen : FreshGen) (delFails : Bool) (insFails : Nat → Bool) :
    RunResult :=
  let d := delete_test_conversations_run delFails
  let c := create_demo_conversations_run gen insFails
  { ops := d.ops ++ c.ops, errors := d.errors ++ c.errors }

/-- The ordered key list of a record payload. -/
def recordKeys (r : List (String × Value)) : List String := r.map Prod.fst

/-- The record fields whose values are freshly generated identifiers or
timestamps (per-message `id`/`timestamp` fields are handled separately by
`coreOfEntry`). -/
def freshFields : List String := ["conversation_id", "created_at", "responded_at"]

/-- A record value with the freshly generated parts erased: fresh top-level
fields become the placeholder `fresh`, and each formatted message keeps only
its `content` and `isFromUser` fields. -/
inductive CoreValue where
  | str (s : String)
  | fresh
  | msgs (l : List (String × Bool))
deriving Repr, DecidableEq

/-- Erase the freshly generated parts of one record entry. -/
def coreOfEntry : String × Value → String × CoreValue :=
  fun p =>
    if p.1 ∈ freshFields then (p.1, CoreValue.fresh)
    else match p.2 with
      | Value.str s => (p.1, CoreValue.str s)
      | Value.msgs l =>
        (p.1, CoreValue.msgs (l.map fun m => (m.content, m.isFromUser)))

/-- Erase the freshly generated parts of a record payload. -/
def coreOfRecord (r : List (String × Value)) : List (String × CoreValue) :=
  r.map coreOfEntry

/-- Erase the freshly generated parts of a store operation. -/
def coreOfOp : StoreOp → Option (List (String × CoreValue))
  | StoreOp.insert r => some (coreOfRecord r)
  | StoreOp.deleteByFilter _ _ => none

/-- The eleven keys both scripts put unconditionally into every record
payload. -/
def requiredKeys : List String :=
  ["conversation_id", "user_id", "conversation_title", "child_name",
   "child_age", "child_dob", "triage_outcome", "conversation_summary",
   "conversation_messages", "status", "created_at"]

/-- The optional keys a record payload receives for template `conv`: one per
optional field the template defines, in the order the scripts test them. -/
def optionalKeys (conv : ConvTemplate) : List String :=
  (if conv.provider_response.isSome then ["provider_response"] else []) ++
  (if conv.provider_name.isSome then ["provider_name"] else []) ++
  (if conv.has_responded_at then ["responded_at"] else []) ++
  (if conv.flag_reason.isSome then ["flag_reason"] else [])

/-- Whether a store operation targets only the synthetic test user: an
insert whose payload's `user_id` field holds `"test_provider_001"`, or a
delete filtering exactly on the field `user_id` with exactly that value. -/
def opCarriesTestUser : StoreOp → Bool
  | StoreOp.insert r =>
    List.lookup "user_id" r == some (Value.str "test_provider_001")
  | StoreOp.deleteByFilter f v => f == "user_id" && v == "test_provider_001"

/-- A concrete oracle environment, used to evaluate runs on explicit
inputs. -/
def constGen : FreshGen :=
  { convId := fun _ => "cid"
    msgId := fun _ _ => "mid"
    msgTs := fun _ _ => "mts"
    createdAt := fun _ => "cts"
    respondedAt := fun _ => "rts" }

end Clara

namespace Archiver

/-- Modelled from the spec: the closed commit-category enumeration
`FEATURE | FIX | REFACTOR | DOCS | SECURITY | CHORE | OTHER` of the session
activity archiver's data model (the archiver's code is not among the
provided sources). -/
inductive Category where
  | FEATURE
  | FIX
  | REFACTOR
  | DOCS
  | SECURITY
  | CHORE
  | OTHER
deriving Repr, DecidableEq

/-- Whether the character list `s` starts with the character list `p`. -/
def leadsWith : List Char → List Char → Bool
  | [], _ => true
  | _ :: _, [] => false
  | p :: ps, c :: cs => p == c && leadsWith ps cs

/-- Whether the character list `pat` occurs contiguously somewhere in `s`. -/
def occursIn (pat : List Char) : List Char → Bool
  | [] => leadsWith pat []
  | c :: cs => leadsWith pat (c :: cs) || occursIn pat cs

/-- Whether the string `s` contains the string `tag` as a contiguous
substring. -/
def containsTag (s tag : String) : Bool := occursIn tag.data s.data

/-- Modelled from the spec: the known category names, each immediately
followed by a colon, in the fixed precedence order
`FEATURE, FIX, REFACTOR, DOCS, SECURITY, CHORE` used by the commit
classifier (the archiver's code is not among the provided sources). -/
def categoryTags : List (String × Category) :=
  [("FEATURE:", Category.FEATURE), ("FIX:", Category.FIX),
   ("REFACTOR:", Category.REFACTOR), ("DOCS:", Category.DOCS),
   ("SECURITY:", Category.SECURITY), ("CHORE:", Category.CHORE)]

/-- Modelled from the spec: `classify(subject)` scans the commit subject for
a known category name immediately followed by a colon, in the fixed
precedence order of `categoryTags`; the first match wins and an unmatched
subject yields the rendering path's `default` category (the archiver's code
is not among the provided sources). -/
def classifyWithDefault (default : Category) (subject : String) : Category :=
  match categoryTags.find? (fun p => containsTag subject p.1) with
  | some p => p.2
  | none => default

/-- Modelled from the spec: the classifier used by the summary rendering
path, whose unmatched default is `OTHER`. -/
def classifySummary : String → Category := classifyWithDefault Category.OTHER

/-- Modelled from the spec: the classifier used by the changelog rendering
path, whose unmatched default is `CHORE`. -/
def classifyChangelog : String → Category := classifyWithDefault Category.CHORE

/-- Modelled from the spec: duration formatting of the activity aggregator.
Elapsed time is floored to whole minutes; when the whole-hour component is
nonzero the duration renders as `"<H>h <M>m"`, otherwise as `"<M>m"`, with
no rounding beyond truncation (the archiver's code is not among the provided
sources). -/
def formatDuration (elapsedSeconds : Nat) : String :=
  let totalMinutes := elapsedSeconds / 60
  let hours := totalMinutes / 60
  let minutes := totalMinutes % 60
  if hours = 0 then toString totalMinutes ++ "m"
  else toString hours ++ "h " ++ toString minutes ++ "m"

/-- Modelled from the spec: the horizontal-rule separator placed between the
newly rendered changelog document and the prior archive content. -/
def changelogSeparator : String := "\n\n---\n\n"

/-- Modelled from the spec: the changelog-persistence operation of the
archive updater.  It reads the existing archive document if present and
prepends the newly rendered changelog document, separated by a horizontal
rule, preserving all prior content; if no archive exists yet the new
document becomes the entire archive (the archiver's code is not among the
provided sources). -/
def updateChangelogArchive (existing : Option String) (newDoc : String) :
    String :=
  match existing with
  | none => newDoc
  | some old => newDoc ++ changelogSeparator ++ old

/-- The session window: externally supplied start instant and the run
instant, in seconds. -/
structure SessionWindow where
  startSec : Nat
  endSec : Nat
deriving Repr, DecidableEq

/-- A raw commit as returned by the commit-log sub-query. -/
structure CommitRaw where
  hash : String
  subject : String
  author : String
  timestampText : String
  body : String
deriving Repr, DecidableEq

/-- Modelled from the spec: the result of the four independent version
control sub-queries; `none` marks a sub-query that failed or timed out (the
archiver's code is not among the provided sources). -/
structure VcsRaw where
  commits : Option (List CommitRaw)
  uncommitted : Option String
  branch : Option String
  remote : Option String

/-- Task-tracking counts supplied by the external task collaborator. -/
structure TaskCounts where
  total : Nat
  completed : Nat
  inProgress : Nat
  pending : Nat
deriving Repr, DecidableEq

/-- The immutable per-run activity snapshot all four renders read from. -/
structure Snapshot where
  window : SessionWindow
  commits : List CommitRaw
  branch : String
  remoteStatusLine : String
  hasUncommittedChanges : Bool
  uncommittedStatusText : String
  taskCounts : TaskCounts
deriving Repr, DecidableEq

/-- Modelled from the spec: snapshot construction with fail-soft defaults.
Each failed version-control sub-query degrades to its empty/unknown default
(empty commit list, branch `"unknown"`, empty status text) and contributes a
warning instead of aborting the run (the archiver's code is not among the
provided sources). -/
def buildSnapshot (window : SessionWindow) (vcs : VcsRaw)
    (tasks : TaskCounts) : Snapshot × List String :=
  let uncommittedText := vcs.uncommitted.getD ""
  let snap : Snapshot :=
    { window := window
      commits := vcs.commits.getD []
      branch := vcs.branch.getD "unknown"
      remoteStatusLine := vcs.remote.getD ""
      hasUncommittedChanges := !uncommittedText.isEmpty
      uncommittedStatusText := uncommittedText
      taskCounts := tasks }
  let warnings :=
    (if vcs.commits.isNone then
      ["warning: commit log query failed; using empty commit list"] else []) ++
    (if vcs.uncommitted.isNone then
      ["warning: working tree status query failed; using empty status"]
     else []) ++
    (if vcs.branch.isNone then
      ["warning: branch query failed; branch is unknown"] else []) ++
    (if vcs.remote.isNone then
      ["warning: remote tracking query failed; using empty status"] else [])
  (snap, warnings)

/-- The display name of a category. -/
def categoryName : Category → String
  | Category.FEATURE => "FEATURE"
  | Category.FIX => "FIX"
  | Category.REFACTOR => "REFACTOR"
  | Category.DOCS => "DOCS"
  | Category.SECURITY => "SECURITY"
  | Category.CHORE => "CHORE"
  | Category.OTHER => "OTHER"

/-- Modelled from the spec: the fixed display order of category sections in
the summary view. -/
def summaryOrder : List Category :=
  [Category.FEATURE, Category.FIX, Category.SECURITY, Category.DOCS,
   Category.REFACTOR, Category.CHORE, Category.OTHER]

/-- Modelled from the spec: the enumeration order of category sections in
the changelog view. -/
def changelogOrder : List Category :=
  [Category.FEATURE, Category.FIX, Category.REFACTOR, Category.DOCS,
   Category.SECURITY, Category.CHORE]

/-- The commits of a snapshot that the given classifier sends to the given
category. -/
def commitsInCategory (classifier : String → Category) (cat : Category)
    (commits : List CommitRaw) : List CommitRaw :=
  commits.filter (fun c => classifier c.subject == cat)

/-- One rendered category section: empty when the category has no commits,
otherwise a heading followed by one line per commit subject. -/
def categorySection (name : String) (cs : List CommitRaw) : String :=
  if cs.isEmpty then ""
  else "## " ++ name ++ "\n" ++
    String.join (cs.map (fun c => "- " ++ c.subject ++ "\n"))

/-- Modelled from the spec: the summary render — a narrative document with
branch, duration, the commit sections in `summaryOrder` (classified with the
summary-path default `OTHER`), and a trailing uncommitted-changes warning
block when `hasUncommittedChanges` is set (the archiver's code is not among
the provided sources). -/
def renderSummary (s : Snapshot) : String :=
  "# Session Summary\n" ++
  ("Branch: " ++ s.branch ++ "\n" ++
   "Duration: " ++ formatDuration (s.window.endSec - s.window.startSec) ++
   "\n" ++
   String.join (summaryOrder.map (fun cat =>
     categorySection (categoryName cat)
       (commitsInCategory classifySummary cat s.commits))) ++
   (if s.hasUncommittedChanges then
     "WARNING: uncommitted changes\n" ++ s.uncommittedStatusText ++ "\n"
    else ""))

/-- Modelled from the spec: the worklist render — the fixed-priority task
board combined with the live task counts (the archiver's code is not among
the provided sources). -/
def renderWorklist (s : Snapshot) : String :=
  "# Worklist\n" ++
  ("Tasks: " ++ toString s.taskCounts.total ++ " total, " ++
   toString s.taskCounts.completed ++ " completed, " ++
   toString s.taskCounts.inProgress ++ " in progress, " ++
   toString s.taskCounts.pending ++ " pending\n")

/-- Modelled from the spec: the changelog render — duration and total commit
count in the header, then the commit sections in `changelogOrder`
(classified with the changelog-path default `CHORE`), omitting categories
with zero commits (the archiver's code is not among the provided
sources). -/
def renderChangelog (s : Snapshot) : String :=
  "# Changelog\n" ++
  ("Duration: " ++ formatDuration (s.window.endSec - s.window.startSec) ++
   " — " ++ toString s.commits.length ++ " commits\n" ++
   String.join (changelogOrder.map (fun cat =>
     categorySection (categoryName cat)
       (commitsInCategory classifyChangelog cat s.commits))))

/-- Modelled from the spec: the metrics render — a plain key/value report of
duration, totals, the uncommitted flag and the task counts (the archiver's
code is not among the provided sources). -/
def renderMetrics (s : Snapshot) : String :=
  "# Metrics\n" ++
  ("duration: " ++ formatDuration (s.window.endSec - s.window.startSec) ++
   "\n" ++
   "commits: " ++ toString s.commits.length ++ "\n" ++
   "branch: " ++ s.branch ++ "\n" ++
   "uncommitted: " ++ (if s.hasUncommittedChanges then "yes" else "no") ++
   "\n" ++
   "tasks: " ++ toString s.taskCounts.total ++ "\n")

/-- The output of one archiver run: the four rendered documents and the
warnings collected while building the snapshot. -/
structure ArchiverOutput where
  summary : String
  worklist : String
  changelog : String
  metrics : String
  warnings : List String
deriving Repr, DecidableEq

/-- Modelled from the spec: one archiver run — build the snapshot with
fail-soft defaults, then render all four documents from that one immutable
snapshot (the archiver's code is not among the provided sources). -/
def runArchiver (window : SessionWindow) (vcs : VcsRaw)
    (tasks : TaskCounts) : ArchiverOutput :=
  let built := buildSnapshot window vcs tasks
  { summary := renderSummary built.1
    worklist := renderWorklist built.1
    changelog := renderChangelog built.1
    metrics := renderMetrics built.1
    warnings := built.2 }

end Archiver

namespace Clara

/-- The operation trace of the shared insertion loop: one insert per
template, in order, built at the successive 1-based indices — independent of
the failure oracle. -/
theorem insertLoop_ops (build : Nat → ConvTemplate → List (String × Value))
    (errMsg : Nat → ConvTemplate → String) (insFails : Nat → Bool)
    (n : Nat) (ts : List ConvTemplate) :
    (insertLoop build errMsg insFails n ts).ops =
      (ts.enumFrom n).map (fun p => StoreOp.insert (build p.1 p.2)) := by
  induction ts generalizing n with
  | nil => rfl
  | cons conv rest ih => simp [insertLoop, List.enumFrom, ih]

/-- The error reports of the shared insertion loop: one report per failing
iteration, in order. -/
theorem insertLoop_errors (build : Nat → ConvTemplate → List (String × Value))
    (errMsg : Nat → ConvTemplate → String) (insFails : Nat → Bool)
    (n : Nat) (ts : List ConvTemplate) :
    (insertLoop build errMsg insFails n ts).errors =
      ((ts.enumFrom n).filter (fun p => insFails p.1)).map
        (fun p => errMsg p.1 p.2) := by
  induction ts generalizing n with
  | nil => rfl
  | cons conv rest ih =>
    cases h : insFails n <;>
      simp [insertLoop, List.enumFrom, List.filter_cons, h, ih]

/-- Filtering a mapped trace with a predicate false on every image yields
nothing. -/
theorem filter_map_of_neg {α β : Type} (f : α → β) (q : β → Bool)
    (hf : ∀ a, q (f a) = false) (l : List α) :
    (l.map f).filter q = [] := by
  induction l with
  | nil => rfl
  | cons a as ih => simp [List.filter_cons, hf a, ih]

/-- Filtering a mapped trace with a predicate true on every image keeps
everything. -/
theorem filter_map_of_pos {α β : Type} (f : α → β) (q : β → Bool)
    (hf : ∀ a, q (f a) = true) (l : List α) :
    (l.map f).filter q = l.map f := by
  induction l with
  | nil => rfl
  | cons a as ih => simp [List.filter_cons, hf a, ih]

/-- A predicate true on every image holds of every element of a mapped
trace. -/
theorem all_map_of_pos {α β : Type} (f : α → β) (q : β → Bool)
    (hf : ∀ a, q (f a) = true) (l : List α) :
    (l.map f).all q = true := by
  induction l with
  | nil => rfl
  | cons a as ih => simp [List.all_cons, hf a, ih]

/-- Mapping a function of only the entry over an enumerated list forgets the
indices. -/
theorem enumFrom_map_snd_comp {α β : Type} (h : α → β) (n : Nat)
    (l : List α) :
    (l.enumFrom n).map (fun p => h p.2) = l.map h := by
  induction l generalizing n with
  | nil => rfl
  | cons a as ih => simp [List.enumFrom, ih]

/-- The record keys produced by the seeding script's record construction:
the eleven required keys followed by exactly the optional keys the template
defines. -/
theorem seedRecord_keys (gen : FreshGen) (idx : Nat) (conv : ConvTemplate) :
    recordKeys (seedRecord gen idx conv) = requiredKeys ++ optionalKeys conv := by
  obtain ⟨cn, ca, cd, ct, tr, cs, st, pr, pn, ra, fr, ms⟩ := conv
  cases pr <;> cases pn <;> cases ra <;> cases fr <;>
    simp [seedRecord, recordKeys, requiredKeys, optionalKeys]

/-- The record keys produced by the reset script's record construction:
the eleven required keys followed by exactly the optional keys the template
defines. -/
theorem resetRecord_keys (gen : FreshGen) (idx : Nat) (conv : ConvTemplate) :
    recordKeys (resetRecord gen idx conv) = requiredKeys ++ optionalKeys conv := by
  obtain ⟨cn, ca, cd, ct, tr, cs, st, pr, pn, ra, fr, ms⟩ := conv
  cases pr <;> cases pn <;> cases ra <;> cases fr <;>
    simp [resetRecord, recordKeys, requiredKeys, optionalKeys]

/-- The `user_id` field of every record built by the seeding script holds
`"test_provider_001"`. -/
theorem seedRecord_lookup_user (gen : FreshGen) (idx : Nat)
    (conv : ConvTemplate) :
    List.lookup "user_id" (seedRecord gen idx conv) =
      some (Value.str "test_provider_001") := by
  obtain ⟨cn, ca, cd, ct, tr, cs, st, pr, pn, ra, fr, ms⟩ := conv
  cases pr <;> cases pn <;> cases ra <;> cases fr <;>
    simp [seedRecord, List.lookup]

/-- The `user_id` field of every record built by the reset script holds
`"test_provider_001"`. -/
theorem resetRecord_lookup_user (gen : FreshGen) (idx : Nat)
    (conv : ConvTemplate) :
    List.lookup "user_id" (resetRecord gen idx conv) =
      some (Value.str "test_provider_001") := by
  obtain ⟨cn, ca, cd, ct, tr, cs, st, pr, pn, ra, fr, ms⟩ := conv
  cases pr <;> cases pn <;> cases ra <;> cases fr <;>
    simp [resetRecord, List.lookup]

/-- The formatted messages of a template, with fresh ids and timestamps
erased, are exactly the template's `content`/`role == "parent"` pairs. -/
theorem core_msgs_canon (g t : Nat → String) (ms : List MsgTemplate) :
    (create_conversation_messages g t ms).map
        (fun m => (m.content, m.isFromUser)) =
      ms.map (fun m => (m.content, m.role == "parent")) := by
  unfold create_conversation_messages
  rw [List.map_map]
  exact enumFrom_map_snd_comp
    (fun m : MsgTemplate => (m.content, m.role == "parent")) 0 ms

/-- With the freshly generated identifiers and timestamps erased, the record
either script builds for a template is the same. -/
theorem seed_reset_core (gen gen' : FreshGen) (idx idx' : Nat)
    (conv : ConvTemplate) :
    coreOfRecord (seedRecord gen idx conv) =
      coreOfRecord (resetRecord gen' idx' conv) := by
  obtain ⟨cn, ca, cd, ct, tr, cs, st, pr, pn, ra, fr, ms⟩ := conv
  cases pr <;> cases pn <;> cases ra <;> cases fr <;>
    simp [seedRecord, resetRecord, coreOfRecord, coreOfEntry, freshFields,
      core_msgs_canon]

/-- C1: every run of the reset script's `main` issues exactly one
delete-by-filter (field `user_id`, value `"test_provider_001"`), as the very
first store operation, and afterwards re-inserts one record per seed
template (one insert per entry of `TEST_CONVERSATIONS`, of which there are
ten); every operation after the delete is an insert, so the delete never
occurs after an insert within the run. -/
theorem reset_main_deletes_then_reinserts (gen : FreshGen) (delFails : Bool)
    (insFails : Nat → Bool) :
    (main_run gen delFails insFails).ops =
      StoreOp.deleteByFilter "user_id" "test_provider_001" ::
        (TEST_CONVERSATIONS.enumFrom 1).map
          (fun p => StoreOp.insert (resetRecord gen p.1 p.2)) ∧
    ((main_run gen delFails insFails).ops.filter StoreOp.isDelete).length = 1 ∧
    ((main_run gen delFails insFails).ops.filter StoreOp.isInsert).length =
      TEST_CONVERSATIONS.length ∧
    (main_run gen delFails insFails).ops.head? =
      some (StoreOp.deleteByFilter "user_id" "test_provider_001") ∧
    (main_run gen delFails insFails).ops.tail.all StoreOp.isInsert = true ∧
    TEST_CONVERSATIONS.length = 10 := by
  have hops : (main_run gen delFails insFails).ops =
      StoreOp.deleteByFilter "user_id" "test_provider_001" ::
        (TEST_CONVERSATIONS.enumFrom 1).map
          (fun p => StoreOp.insert (resetRecord gen p.1 p.2)) := by
    simp [main_run, delete_test_conversations_run,
      create_demo_conversations_run, insertLoop_ops]
  refine ⟨hops, ?_, ?_, ?_, ?_, rfl⟩
  · rw [hops, List.filter_cons_of_pos rfl,
      filter_map_of_neg
        (fun p : Nat × ConvTemplate => StoreOp.insert (resetRecord gen p.1 p.2))
        StoreOp.isDelete (fun _ => rfl)]
    rfl
  · rw [hops,
      List.filter_cons_of_neg (by exact fun h => Bool.false_ne_true h),
      filter_map_of_pos
        (fun p : Nat × ConvTemplate => StoreOp.insert (resetRecord gen p.1 p.2))
        StoreOp.isInsert (fun _ => rfl),
      List.length_map, List.enumFrom_length]
  · rw [hops]
    rfl
  · rw [hops, List.tail_cons]
    exact all_map_of_pos
      (fun p : Nat × ConvTemplate => StoreOp.insert (resetRecord gen p.1 p.2))
      StoreOp.isInsert (fun _ => rfl) _

/-- C2: every record payload passed to the record-store insert, by either
script, carries the eleven required keys `conversation_id`, `user_id`,
`conversation_title`, `child_name`, `child_age`, `child_dob`,
`triage_outcome`, `conversation_summary`, `conversation_messages`, `status`,
`created_at`, followed by each of the optional keys `provider_response`,
`provider_name`, `responded_at`, `flag_reason` precisely when the template
defines that field; and the insert traces of both scripts consist exactly of
such built payloads. -/
theorem insert_payload_fields (gen gen' : FreshGen) (idx idx' : Nat)
    (conv : ConvTemplate) (insF insF' : Nat → Bool) :
    recordKeys (seedRecord gen idx conv) = requiredKeys ++ optionalKeys conv ∧
    recordKeys (resetRecord gen' idx' conv) = requiredKeys ++ optionalKeys conv ∧
    (create_test_conversations_run gen insF).ops =
      (TEST_CONVERSATIONS.enumFrom 1).map
        (fun p => StoreOp.insert (seedRecord gen p.1 p.2)) ∧
    (create_demo_conversations_run gen' insF').ops =
      (TEST_CONVERSATIONS.enumFrom 1).map
        (fun p => StoreOp.insert (resetRecord gen' p.1 p.2)) :=
  ⟨seedRecord_keys gen idx conv, resetRecord_keys gen' idx' conv,
   insertLoop_ops _ _ _ 1 TEST_CONVERSATIONS,
   insertLoop_ops _ _ _ 1 TEST_CONVERSATIONS⟩

/-- C3: for every seed template, the record built by the reset script's
`create_demo_conversations` equals the record built by the seeding script's
`create_test_conversations` in every field except the freshly generated
identifiers and timestamps (`conversation_id`, `created_at`, `responded_at`,
and the per-message `id` and `timestamp` fields inside
`conversation_messages`); consequently the two scripts' insert traces agree
after erasing those freshly generated parts. -/
theorem seed_reset_equivalence (gen gen' : FreshGen) (idx idx' : Nat)
    (conv : ConvTemplate) (insF insF' : Nat → Bool) :
    coreOfRecord (seedRecord gen idx conv) =
      coreOfRecord (resetRecord gen' idx' conv) ∧
    (create_test_conversations_run gen insF).ops.map coreOfOp =
      (create_demo_conversations_run gen' insF').ops.map coreOfOp := by
  refine ⟨seed_reset_core gen gen' idx idx' conv, ?_⟩
  rw [create_test_conversations_run, create_demo_conversations_run,
    insertLoop_ops, insertLoop_ops, List.map_map, List.map_map]
  refine List.map_congr_left (fun p _ => ?_)
  show coreOfOp (StoreOp.insert (seedRecord gen p.1 p.2)) =
    coreOfOp (StoreOp.insert (resetRecord gen' p.1 p.2))
  simp only [coreOfOp]
  exact congrArg some (seed_reset_core gen gen' p.1 p.1 p.2)

/-- C4: every record inserted by either script carries
`user_id = "test_provider_001"`, and the reset script's delete filters on
exactly the field `user_id` with exactly that value, so the deletion targets
precisely the seeded population. -/
theorem test_user_isolation (gen gen' : FreshGen) (delF : Bool)
    (insF insF' : Nat → Bool) :
    (create_test_conversations_run gen insF).ops.all opCarriesTestUser = true ∧
    (main_run gen' delF insF').ops.all opCarriesTestUser = true ∧
    (delete_test_conversations_run delF).ops =
      [StoreOp.deleteByFilter "user_id" "test_provider_001"] := by
  refine ⟨?_, ?_, rfl⟩
  · rw [create_test_conversations_run, insertLoop_ops]
    exact all_map_of_pos
      (fun p : Nat × ConvTemplate => StoreOp.insert (seedRecord gen p.1 p.2))
      opCarriesTestUser
      (fun p => by simp [opCarriesTestUser, seedRecord_lookup_user]) _
  · have hops : (main_run gen' delF insF').ops =
        StoreOp.deleteByFilter "user_id" "test_provider_001" ::
          (TEST_CONVERSATIONS.enumFrom 1).map
            (fun p => StoreOp.insert (resetRecord gen' p.1 p.2)) := by
      simp [main_run, delete_test_conversations_run,
        create_demo_conversations_run, insertLoop_ops]
    rw [hops, List.all_cons]
    refine (Bool.and_eq_true _ _).mpr ⟨rfl, ?_⟩
    exact all_map_of_pos
      (fun p : Nat × ConvTemplate => StoreOp.insert (resetRecord gen' p.1 p.2))
      opCarriesTestUser
      (fun p => by simp [opCarriesTestUser, resetRecord_lookup_user]) _

/-- C5: `create_conversation_messages` returns a list of the same length and
order as its input, whose entry at each position carries the input entry's
`content` unchanged and whose `isFromUser` is `true` exactly when the input
entry's `role` equals `"parent"`. -/
theorem create_conversation_messages_spec (genId genTs : Nat → String)
    (ms : List MsgTemplate) :
    (create_conversation_messages genId genTs ms).length = ms.length ∧
    (create_conversation_messages genId genTs ms).map Msg.content =
      ms.map MsgTemplate.content ∧
    (create_conversation_messages genId genTs ms).map Msg.isFromUser =
      ms.map (fun m => m.role == "parent") := by
  refine ⟨?_, ?_, ?_⟩
  · simp [create_conversation_messages]
  · unfold create_conversation_messages
    rw [List.map_map]
    exact enumFrom_map_snd_comp (fun m : MsgTemplate => m.content) 0 ms
  · unfold create_conversation_messages
    rw [List.map_map]
    exact enumFrom_map_snd_comp (fun m : MsgTemplate => m.role == "parent") 0 ms

/-- C6: store failures are isolated — the operations a run attempts do not
depend on the failure oracles (every template's insert is attempted whatever
fails, and a delete failure does not prevent re-seeding); each failing
insert contributes its own error report, and a failing delete contributes a
warning while the re-seeding still proceeds. -/
theorem failure_isolation (gen : FreshGen) (delF delF' : Bool)
    (insF insF' : Nat → Bool) :
    (main_run gen delF insF).ops = (main_run gen delF' insF').ops ∧
    (create_test_conversations_run gen insF).ops =
      (create_test_conversations_run gen insF').ops ∧
    (main_run gen delF insF).errors =
      (if delF then ["Warning during deletion"] else []) ++
        ((TEST_CONVERSATIONS.enumFrom 1).filter (fun p => insF p.1)).map
          (fun p => "Error creating " ++ p.2.child_name) ∧
    (create_test_conversations_run gen insF).errors =
      ((TEST_CONVERSATIONS.enumFrom 1).filter (fun p => insF p.1)).map
        (fun p => "Error creating conversation " ++ toString p.1) ∧
    (delF = true →
      "Warning during deletion" ∈ (main_run gen delF insF).errors) := by
  refine ⟨?_, ?_, ?_, ?_, ?_⟩
  · simp [main_run, delete_test_conversations_run,
      create_demo_conversations_run, insertLoop_ops]
  · simp [create_test_conversations_run, insertLoop_ops]
  · simp [main_run, delete_test_conversations_run,
      create_demo_conversations_run, insertLoop_errors]
  · simp [create_test_conversations_run, insertLoop_errors]
  · intro h
    simp [main_run, delete_test_conversations_run, h]

/-- Witness for C6 at explicit inputs: with the delete failing and every
insert failing, the deletion warning is among the reported errors. -/
theorem failure_isolation_witness :
    "Warning during deletion" ∈
      (main_run constGen true (fun _ => true)).errors :=
  (failure_isolation constGen true false (fun _ => true)
    (fun _ => false)).2.2.2.2 rfl

end Clara

namespace Archiver

/-- If a predicate is false on every element of `pre` and true on `x`, the
first match in `pre ++ x :: post` is `x`. -/
theorem find?_append_cons_of_not {α : Type} (p : α → Bool) (pre : List α)
    (x : α) (post : List α) (h : ∀ q ∈ pre, p q = false) (hx : p x = true) :
    (pre ++ x :: post).find? p = some x := by
  induction pre with
  | nil => simpa using List.find?_cons_of_pos post hx
  | cons a as ih =>
    have ha : p a = false := h a (List.mem_cons_self a as)
    rw [List.cons_append, List.find?_cons_of_neg _ (by simp [ha])]
    exact ih (fun q hq => h q (List.mem_cons_of_mem a hq))

/-- C7 (counterexample): the two rendering paths do not classify an
unprefixed subject to the same default — the summary path yields `OTHER`
while the changelog path yields `CHORE` on `"Update readme"`, so `classify`
does not return its default consistently across the render views. -/
theorem classify_default_inconsistent :
    classifySummary "Update readme" = Category.OTHER ∧
    classifyChangelog "Update readme" = Category.CHORE ∧
    classifySummary "Update readme" ≠ classifyChangelog "Update readme" := by
  refine ⟨by decide, by decide, by decide⟩

/-- C7 (amended): both classifiers are deterministic total functions; for
every commit subject containing a known category name immediately followed
by a colon, each returns the first matching category in the fixed precedence
order `FEATURE, FIX, REFACTOR, DOCS, SECURITY, CHORE` (so the two rendering
paths agree on every matched subject); for a subject matching no tag, the
summary-path classifier returns `OTHER` while the changelog-path classifier
returns `CHORE` — the unmatched default differs between the render paths. -/
theorem classify_first_match_and_defaults (s : String) :
    (∀ (pre : List (String × Category)) (t : String) (c : Category)
        (post : List (String × Category)),
      categoryTags = pre ++ (t, c) :: post →
      (∀ q ∈ pre, containsTag s q.1 = false) → containsTag s t = true →
      classifySummary s = c ∧ classifyChangelog s = c) ∧
    ((∀ q ∈ categoryTags, containsTag s q.1 = false) →
      classifySummary s = Category.OTHER ∧
      classifyChangelog s = Category.CHORE) := by
  constructor
  · intro pre t c post hsplit hpre ht
    have hfind : categoryTags.find? (fun p => containsTag s p.1) =
        some (t, c) := by
      rw [hsplit]
      exact find?_append_cons_of_not _ pre (t, c) post hpre ht
    exact ⟨by simp [classifySummary, classifyWithDefault, hfind],
           by simp [classifyChangelog, classifyWithDefault, hfind]⟩
  · intro hall
    have hfind : categoryTags.find? (fun p => containsTag s p.1) = none :=
      List.find?_eq_none.mpr (fun q hq => by simp [hall q hq])
    exact ⟨by simp [classifySummary, classifyWithDefault, hfind],
           by simp [classifyChangelog, classifyWithDefault, hfind]⟩

/-- Witness for the amended C7 at an explicit input: `"FIX:"` is the first
matching tag of `"FIX: handle timeout"`, and both rendering paths classify
it as `FIX`. -/
theorem classify_first_match_and_defaults_witness :
    classifySummary "FIX: handle timeout" = Category.FIX ∧
    classifyChangelog "FIX: handle timeout" = Category.FIX :=
  (classify_first_match_and_defaults "FIX: handle timeout").1
    [("FEATURE:", Category.FEATURE)] "FIX:" Category.FIX
    [("REFACTOR:", Category.REFACTOR), ("DOCS:", Category.DOCS),
     ("SECURITY:", Category.SECURITY), ("CHORE:", Category.CHORE)]
    rfl (by decide) (by decide)

/-- C8: changelog persistence is append-only — when no archive exists the
newly rendered document becomes the entire archive; after two sequential
runs producing bodies `A` then `B` the archive equals `B`, the
horizontal-rule separator, then `A`, with neither text altered; and every
update preserves the complete prior archive verbatim as a suffix, so no
entry is ever deleted or rewritten. -/
theorem changelog_archive_append_only (A B : String) :
    updateChangelogArchive none A = A ∧
    updateChangelogArchive (some (updateChangelogArchive none A)) B =
      B ++ changelogSeparator ++ A ∧
    ∀ old : String, ∃ newPart : String,
      updateChangelogArchive (some old) B = newPart ++ old :=
  ⟨rfl, rfl, fun _ => ⟨B ++ changelogSeparator, rfl⟩⟩

/-- C9: whatever version-control sub-queries fail or time out, the archiver
run still completes and produces all four rendered documents; each failed
sub-query — commit log, working-tree status, branch, or remote tracking —
is substituted by its empty/unknown default (empty commit list, empty
status text, branch `"unknown"`, empty remote status line) and surfaces its
own warning instead of aborting the run. -/
theorem run_fail_soft (w : SessionWindow) (vcs : VcsRaw)
    (tasks : TaskCounts) :
    (∃ r, (runArchiver w vcs tasks).summary = "# Session Summary\n" ++ r) ∧
    (∃ r, (runArchiver w vcs tasks).worklist = "# Worklist\n" ++ r) ∧
    (∃ r, (runArchiver w vcs tasks).changelog = "# Changelog\n" ++ r) ∧
    (∃ r, (runArchiver w vcs tasks).metrics = "# Metrics\n" ++ r) ∧
    (vcs.commits = none →
      (buildSnapshot w vcs tasks).1.commits = [] ∧
      "warning: commit log query failed; using empty commit list" ∈
        (runArchiver w vcs tasks).warnings) ∧
    (vcs.branch = none →
      (buildSnapshot w vcs tasks).1.branch = "unknown" ∧
      "warning: branch query failed; branch is unknown" ∈
        (runArchiver w vcs tasks).warnings) ∧
    (vcs.uncommitted = none →
      (buildSnapshot w vcs tasks).1.uncommittedStatusText = "" ∧
      "warning: working tree status query failed; using empty status" ∈
        (runArchiver w vcs tasks).warnings) ∧
    (vcs.remote = none →
      (buildSnapshot w vcs tasks).1.remoteStatusLine = "" ∧
      "warning: remote tracking query failed; using empty status" ∈
        (runArchiver w vcs tasks).warnings) := by
  refine ⟨⟨_, rfl⟩, ⟨_, rfl⟩, ⟨_, rfl⟩, ⟨_, rfl⟩, ?_, ?_, ?_, ?_⟩ <;>
    intro h <;>
    exact ⟨by simp [buildSnapshot, h], by simp [runArchiver, buildSnapshot, h]⟩

/-- Witness for C9 at an explicit input: with every sub-query failed, the
snapshot degrades to the empty commit list, branch `"unknown"`, empty
working-tree status and empty remote status line, and the run surfaces all
four warnings. -/
theorem run_fail_soft_witness :
    (buildSnapshot ⟨0, 0⟩ ⟨none, none, none, none⟩ ⟨0, 0, 0, 0⟩).1.commits
        = [] ∧
    (buildSnapshot ⟨0, 0⟩ ⟨none, none, none, none⟩ ⟨0, 0, 0, 0⟩).1.branch
        = "unknown" ∧
    (buildSnapshot ⟨0, 0⟩ ⟨none, none, none, none⟩
        ⟨0, 0, 0, 0⟩).1.uncommittedStatusText = "" ∧
    (buildSnapshot ⟨0, 0⟩ ⟨none, none, none, none⟩
        ⟨0, 0, 0, 0⟩).1.remoteStatusLine = "" ∧
    "warning: commit log query failed; using empty commit list" ∈
      (runArchiver ⟨0, 0⟩ ⟨none, none, none, none⟩ ⟨0, 0, 0, 0⟩).warnings ∧
    "warning: branch query failed; branch is unknown" ∈
      (runArchiver ⟨0, 0⟩ ⟨none, none, none, none⟩ ⟨0, 0, 0, 0⟩).warnings ∧
    "warning: working tree status query failed; using empty status" ∈
      (runArchiver ⟨0, 0⟩ ⟨none, none, none, none⟩ ⟨0, 0, 0, 0⟩).warnings ∧
    "warning: remote tracking query failed; using empty status" ∈
      (runArchiver ⟨0, 0⟩ ⟨none, none, none, none⟩ ⟨0, 0, 0, 0⟩).warnings := by
  have h := run_fail_soft ⟨0, 0⟩ ⟨none, none, none, none⟩ ⟨0, 0, 0, 0⟩
  exact ⟨(h.2.2.2.2.1 rfl).1, (h.2.2.2.2.2.1 rfl).1,
    (h.2.2.2.2.2.2.1 rfl).1, (h.2.2.2.2.2.2.2 rfl).1,
    (h.2.2.2.2.1 rfl).2, (h.2.2.2.2.2.1 rfl).2,
    (h.2.2.2.2.2.2.1 rfl).2, (h.2.2.2.2.2.2.2 rfl).2⟩

/-- C10: elapsed duration is floored to whole minutes (sub-minute seconds
never change the rendering), rendered `"<H>h <M>m"` when the whole-hour
component is nonzero and `"<M>m"` otherwise; in particular 125 elapsed
minutes renders as `"2h 5m"` and a 45-second session renders as `"0m"`. -/
theorem duration_format_spec (m s : Nat) (hs : s < 60) :
    formatDuration (60 * m + s) = formatDuration (60 * m) ∧
    (m / 60 = 0 → formatDuration (60 * m) = toString m ++ "m") ∧
    (m / 60 ≠ 0 → formatDuration (60 * m) =
      toString (m / 60) ++ "h " ++ toString (m % 60) ++ "m") ∧
    formatDuration (125 * 60) = "2h 5m" ∧
    formatDuration 45 = "0m" := by
  have hmin : (60 * m + s) / 60 = m := by
    rw [Nat.mul_add_div (by norm_num), Nat.div_eq_of_lt hs, Nat.add_zero]
  have hmin' : 60 * m / 60 = m := Nat.mul_div_cancel_left m (by norm_num)
  refine ⟨?_, ?_, ?_, by decide, by decide⟩
  · simp only [formatDuration, hmin, hmin']
  · intro h
    simp [formatDuration, hmin', h]
  · intro h
    simp only [formatDuration, hmin']
    rw [if_neg h]

/-- Witness for C10 at explicit inputs: 125 minutes and 45 extra seconds
floor to the same rendering, and the concrete rows of the claim hold. -/
theorem duration_format_spec_witness :
    formatDuration (60 * 125 + 45) = formatDuration (60 * 125) ∧
    formatDuration (125 * 60) = "2h 5m" ∧
    formatDuration 45 = "0m" := by
  have h := duration_format_spec 125 45 (by decide)
  exact ⟨h.1, h.2.2.2.1, h.2.2.2.2⟩

end Archiver
